import Mathlib

/-!
Shallow embedding of `crates/payload/basic/src/builder_stack.rs`: the `Either`
sum type, the `BuildOutcome` mapping, and the `PayloadBuilderStack` combinator
with its `try_build` / `build_empty_payload` dispatch logic.

External opaque types (`CachedReads`, `Cancelled`, `SealedBlock`, `Bytes`,
`B256`, `U256`) are modeled as concrete carriers: the code under verification
only moves values of these types around (Rust `clone` on them is modeled as the
identity, which is exact for value semantics and models reference-counted
handle sharing for the cancellation token).
-/

/-- Model of `alloy_primitives::B256`, an opaque 256-bit hash; carrier only. -/
abbrev B256 := Nat

/-- Model of `U256` fee totals; carrier only (no arithmetic happens on it here). -/
abbrev U256 := Nat

/-- Model of `reth_revm::CachedReads`: execution-state read cache, opaque to the stack. -/
structure CachedReads where
  data : Nat
deriving DecidableEq, Repr

/-- Cancellation token (`Cancelled` in the basic payload builder); cloning it
shares the same underlying signal, so equal values model the same signal. -/
structure CancelSignal where
  token : Nat
deriving DecidableEq, Repr

/-- Model of `reth_primitives::SealedBlock`, opaque to the stack. -/
structure SealedBlock where
  data : Nat
deriving DecidableEq, Repr

/-- Model of the `extra_data` bytes; carrier only. -/
abbrev Bytes := List Nat

/-- Model of `PayloadBuilderError`; the stack itself only ever constructs the `Other`
variant around a fresh io error whose message is recorded here. -/
inductive PayloadBuilderError where
  | MissingPayload
  | ChannelClosed
  | Other (msg : String)
deriving DecidableEq, Repr

/-- Hand rolled `Either` enum from `builder_stack.rs` (two builder types). -/
inductive Either (L R : Type) where
  | Left (l : L)
  | Right (r : R)
deriving DecidableEq, Repr

/-- Tri-state result of one build attempt (`BuildOutcome<Payload>`). -/
inductive BuildOutcome (Payload : Type) where
  | Better (payload : Payload) (cached_reads : CachedReads)
  | Aborted (fees : U256) (cached_reads : CachedReads)
  | Cancelled
deriving DecidableEq, Repr

/-- Definition of `BuildOutcome::map_payload` (builder_stack.rs lines 165-179). -/
def BuildOutcome.map_payload {B B2 : Type} (o : BuildOutcome B) (f : B → B2) :
    BuildOutcome B2 :=
  match o with
  | .Better payload cached_reads => .Better (f payload) cached_reads
  | .Aborted fees cached_reads => .Aborted fees cached_reads
  | .Cancelled => .Cancelled

/-- Model of `PayloadConfig<Attributes>`: the fields the stack reads and rebuilds. -/
structure PayloadConfig (Attributes : Type) where
  parent_block : SealedBlock
  extra_data : Bytes
  attributes : Attributes
deriving Repr

/-- Model of `BuildArguments<Pool, Client, Attributes, Payload>`: the per-attempt bundle
the stack receives and reshapes for the dispatched inner builder. -/
structure BuildArguments (Pool Client Attributes Payload : Type) where
  client : Client
  pool : Pool
  cached_reads : CachedReads
  config : PayloadConfig Attributes
  cancel : CancelSignal
  best_payload : Option Payload
deriving Repr

/-- The `PayloadBuilder<Pool, Client>` operation surface an inner builder
provides (`on_missing_payload` is not overridden by the stack and is omitted). -/
structure PayloadBuilder (Pool Client Attributes Payload : Type) where
  try_build : BuildArguments Pool Client Attributes Payload →
    Except PayloadBuilderError (BuildOutcome Payload)
  build_empty_payload : Client → PayloadConfig Attributes →
    Except PayloadBuilderError Payload

/-- Model of `PayloadBuilderStack<L, R>`: owns the two builders. -/
structure PayloadBuilderStack (L R : Type) where
  left : L
  right : R

/-- Definition of `PayloadBuilderStack::new`. -/
def PayloadBuilderStack.new {L R : Type} (left : L) (right : R) :
    PayloadBuilderStack L R :=
  { left := left, right := right }

/-- The forwarding of `Either::try_new` (builder_stack.rs lines 59-67), with
the two inner `try_new` constructors passed explicitly in place of the trait
dispatch. -/
def Either.try_new {RpcL RpcR AL AR EL ER : Type}
    (ltry : B256 → RpcL → Except EL AL) (rtry : B256 → RpcR → Except ER AR)
    (parent : B256) (rpc_payload_attributes : Either RpcL RpcR) :
    Except (Either EL ER) (Either AL AR) :=
  match rpc_payload_attributes with
  | .Left attr => ((ltry parent attr).map Either.Left).mapError Either.Left
  | .Right attr => ((rtry parent attr).map Either.Right).mapError Either.Right

section Stack

variable {Pool Client AL AR PL PR : Type}

/-- The left-narrowed `BuildArguments` built at builder_stack.rs lines 203-220:
clones of client/pool/cached_reads/cancel (clone = identity here), the same
parent block and extra data, the inner left attribute, and `best_payload`
narrowed to the `Left` variant. -/
def PayloadBuilderStack.left_args
    (args : BuildArguments Pool Client (Either AL AR) (Either PL PR))
    (left_attr : AL) : BuildArguments Pool Client AL PL :=
  { client := args.client
    pool := args.pool
    cached_reads := args.cached_reads
    config :=
      { parent_block := args.config.parent_block
        extra_data := args.config.extra_data
        attributes := left_attr }
    cancel := args.cancel
    best_payload := args.best_payload.bind fun payload =>
      match payload with
      | .Left p => some p
      | _ => none }

/-- The right-narrowed `BuildArguments` built at builder_stack.rs lines
237-254, symmetric to `PayloadBuilderStack.left_args`. -/
def PayloadBuilderStack.right_args
    (args : BuildArguments Pool Client (Either AL AR) (Either PL PR))
    (right_attr : AR) : BuildArguments Pool Client AR PR :=
  { client := args.client
    pool := args.pool
    cached_reads := args.cached_reads
    config :=
      { parent_block := args.config.parent_block
        extra_data := args.config.extra_data
        attributes := right_attr }
    cancel := args.cancel
    best_payload := args.best_payload.bind fun payload =>
      match payload with
      | .Right p => some p
      | _ => none }

/-- Definition of `PayloadBuilderStack::try_build` (builder_stack.rs lines 197-276).  The
trailing generic error expression at lines 272-275 is reachable only from the
`Err(_) => {}` arm of the `Left` dispatch, so it is inlined there. -/
def PayloadBuilderStack.try_build
    (s : PayloadBuilderStack (PayloadBuilder Pool Client AL PL)
      (PayloadBuilder Pool Client AR PR))
    (args : BuildArguments Pool Client (Either AL AR) (Either PL PR)) :
    Except PayloadBuilderError (BuildOutcome (Either PL PR)) :=
  match args.config.attributes with
  | .Left left_attr =>
    match s.left.try_build (PayloadBuilderStack.left_args args left_attr) with
    | .ok (.Better payload cached_reads) =>
        .ok (.Better (Either.Left payload) cached_reads)
    | .ok other => .ok (other.map_payload Either.Left)
    | .error _ =>
        .error (.Other "Both left and right builders failed to build the payload")
  | .Right right_attr =>
    match s.right.try_build (PayloadBuilderStack.right_args args right_attr) with
    | .ok (.Better payload cached_reads) =>
        .ok (.Better (Either.Right payload) cached_reads)
    | .ok other => .ok (other.map_payload Either.Right)
    | .error e => .error e

/-- Definition of `PayloadBuilderStack::build_empty_payload` (builder_stack.rs lines
278-319).  The trailing generic error at lines 315-318 is reachable only from
the `Err(_) => {}` arm of the `Left` dispatch and is inlined there. -/
def PayloadBuilderStack.build_empty_payload
    (s : PayloadBuilderStack (PayloadBuilder Pool Client AL PL)
      (PayloadBuilder Pool Client AR PR))
    (client : Client) (config : PayloadConfig (Either AL AR)) :
    Except PayloadBuilderError (Either PL PR) :=
  match config.attributes with
  | .Left left_attr =>
    match s.left.build_empty_payload client
        { parent_block := config.parent_block
          extra_data := config.extra_data
          attributes := left_attr } with
    | .ok payload_left => .ok (Either.Left payload_left)
    | .error _ =>
        .error (.Other "Failed to build empty payload with both left and right builders")
  | .Right right_attr =>
    match s.right.build_empty_payload client
        { parent_block := config.parent_block
          extra_data := config.extra_data
          attributes := right_attr } with
    | .ok payload_right => .ok (Either.Right payload_right)
    | .error e => .error e

end Stack

/-! Concrete builders and request data used to instantiate the theorems at
explicit inputs.  Both sides use the same `Nat` attribute/payload types, so
the same instances serve homogeneous and tag-dispatch scenarios.  -/

/-- A left builder whose attempts always succeed. -/
def exLeftOk : PayloadBuilder Unit Unit Nat Nat :=
  { try_build := fun _ => .ok (.Better 1 ⟨5⟩)
    build_empty_payload := fun _ _ => .ok 1 }

/-- A left builder agreeing with `exLeftOk` on `try_build` but not on
`build_empty_payload`. -/
def exLeftOk2 : PayloadBuilder Unit Unit Nat Nat :=
  { try_build := fun _ => .ok (.Better 1 ⟨5⟩)
    build_empty_payload := fun _ _ => .error (.Other "no empty payload") }

/-- A left builder whose attempts always fail, with a distinctive cause. -/
def exLeftErr : PayloadBuilder Unit Unit Nat Nat :=
  { try_build := fun _ => .error (.Other "left build failure")
    build_empty_payload := fun _ _ => .error (.Other "left empty failure") }

/-- A second always-failing left builder with a different cause. -/
def exLeftErr2 : PayloadBuilder Unit Unit Nat Nat :=
  { try_build := fun _ => .error (.Other "another left build failure")
    build_empty_payload := fun _ _ => .error (.Other "another left empty failure") }

/-- A right builder whose attempts always succeed. -/
def exRightOk : PayloadBuilder Unit Unit Nat Nat :=
  { try_build := fun _ => .ok (.Better 2 ⟨6⟩)
    build_empty_payload := fun _ _ => .ok 2 }

/-- A right builder whose attempts always fail. -/
def exRightErr : PayloadBuilder Unit Unit Nat Nat :=
  { try_build := fun _ => .error (.Other "right build failure")
    build_empty_payload := fun _ _ => .error (.Other "right empty failure") }

/-- Concrete `BuildArguments` with the given combined attributes. -/
def exArgs (attrs : Either Nat Nat) :
    BuildArguments Unit Unit (Either Nat Nat) (Either Nat Nat) :=
  { client := (), pool := (), cached_reads := ⟨0⟩
    config := { parent_block := ⟨0⟩, extra_data := [], attributes := attrs }
    cancel := ⟨0⟩, best_payload := none }

/-- Concrete `PayloadConfig` with the given combined attributes. -/
def exConfig (attrs : Either Nat Nat) : PayloadConfig (Either Nat Nat) :=
  { parent_block := ⟨0⟩, extra_data := [], attributes := attrs }

/-- A concrete fallible left attribute constructor (accepts only `0`). -/
def exLtryNew : B256 → Nat → Except String Nat :=
  fun _ n => if n = 0 then .ok n else .error "malformed left attributes"

/-- A concrete infallible right attribute constructor. -/
def exRtryNew : B256 → Bool → Except String Bool :=
  fun _ b => .ok b

/-! Theorems. -/

/-- C2: `BuildOutcome::map_payload` is structure-preserving: `Better{p, c}`
maps to `Better{f p, c}` with identical `cached_reads`, `Aborted{fees, c}`
maps to `Aborted{fees, c}` unchanged, and `Cancelled` maps to `Cancelled`
regardless of `f`. -/
theorem map_payload_structure_preserving {B B2 : Type} (f : B → B2)
    (p : B) (c : CachedReads) (fees : U256) :
    (BuildOutcome.Better p c).map_payload f = BuildOutcome.Better (f p) c
    ∧ (BuildOutcome.Aborted fees c : BuildOutcome B).map_payload f
        = BuildOutcome.Aborted fees c
    ∧ (BuildOutcome.Cancelled : BuildOutcome B).map_payload f
        = BuildOutcome.Cancelled :=
  ⟨rfl, rfl, rfl⟩

/-- C4: `Either::try_new` dispatches on the tag of the raw attribute union:
a `Left`-tagged input yields `Either::Left a` exactly when the left
constructor succeeds with `a`, and error `Either::Left e` exactly when it
fails with `e`; the result tag (success or failure) always equals the input
tag; symmetrically for `Right`. -/
theorem either_try_new_dispatches_on_tag {RpcL RpcR AL AR EL ER : Type}
    (ltry : B256 → RpcL → Except EL AL) (rtry : B256 → RpcR → Except ER AR)
    (parent : B256) :
    (∀ l : RpcL,
      (∀ a, Either.try_new ltry rtry parent (.Left l) = .ok (.Left a)
          ↔ ltry parent l = .ok a)
      ∧ (∀ e, Either.try_new ltry rtry parent (.Left l) = .error (.Left e)
          ↔ ltry parent l = .error e)
      ∧ (∀ a, Either.try_new ltry rtry parent (.Left l) ≠ .ok (.Right a))
      ∧ (∀ e, Either.try_new ltry rtry parent (.Left l) ≠ .error (.Right e)))
    ∧ (∀ r : RpcR,
      (∀ a, Either.try_new ltry rtry parent (.Right r) = .ok (.Right a)
          ↔ rtry parent r = .ok a)
      ∧ (∀ e, Either.try_new ltry rtry parent (.Right r) = .error (.Right e)
          ↔ rtry parent r = .error e)
      ∧ (∀ a, Either.try_new ltry rtry parent (.Right r) ≠ .ok (.Left a))
      ∧ (∀ e, Either.try_new ltry rtry parent (.Right r) ≠ .error (.Left e))) := by
  constructor
  · intro l
    refine ⟨fun a => ?_, fun e => ?_, fun a => ?_, fun e => ?_⟩ <;>
      cases h : ltry parent l <;>
        simp [Either.try_new, h, Except.map, Except.mapError]
  · intro r
    refine ⟨fun a => ?_, fun e => ?_, fun a => ?_, fun e => ?_⟩ <;>
      cases h : rtry parent r <;>
        simp [Either.try_new, h, Except.map, Except.mapError]

/-- C1: for a heterogeneous stack, `try_build` on `Either::Left`-tagged
attributes depends only on the left builder — two stacks sharing the same
left builder but arbitrary different right builders give the same result
(so the right builder is never invoked); symmetrically for `Right`. -/
theorem try_build_independent_of_other_side
    {Pool Client AL AR PL PR : Type}
    (client : Client) (pool : Pool) (cr : CachedReads) (parent : SealedBlock)
    (extra : Bytes) (cancel : CancelSignal) (bp : Option (Either PL PR)) :
    (∀ (l : PayloadBuilder Pool Client AL PL)
        (r1 r2 : PayloadBuilder Pool Client AR PR) (la : AL),
      (PayloadBuilderStack.new l r1).try_build
        { client := client, pool := pool, cached_reads := cr,
          config := { parent_block := parent, extra_data := extra,
                      attributes := .Left la },
          cancel := cancel, best_payload := bp }
      = (PayloadBuilderStack.new l r2).try_build
        { client := client, pool := pool, cached_reads := cr,
          config := { parent_block := parent, extra_data := extra,
                      attributes := .Left la },
          cancel := cancel, best_payload := bp })
    ∧ (∀ (l1 l2 : PayloadBuilder Pool Client AL PL)
        (r : PayloadBuilder Pool Client AR PR) (ra : AR),
      (PayloadBuilderStack.new l1 r).try_build
        { client := client, pool := pool, cached_reads := cr,
          config := { parent_block := parent, extra_data := extra,
                      attributes := .Right ra },
          cancel := cancel, best_payload := bp }
      = (PayloadBuilderStack.new l2 r).try_build
        { client := client, pool := pool, cached_reads := cr,
          config := { parent_block := parent, extra_data := extra,
                      attributes := .Right ra },
          cancel := cancel, best_payload := bp }) :=
  ⟨fun _ _ _ _ => rfl, fun _ _ _ _ => rfl⟩

/-- C3: a previous `best_payload` whose `Either` tag does not match the tag
of `config.attributes` is narrowed away: `try_build` with a `Left`-tagged
best payload under `Right`-tagged attributes behaves identically to
`try_build` with no best payload at all, and symmetrically. -/
theorem try_build_mismatched_best_payload_absent
    {Pool Client AL AR PL PR : Type}
    (s : PayloadBuilderStack (PayloadBuilder Pool Client AL PL)
      (PayloadBuilder Pool Client AR PR))
    (client : Client) (pool : Pool) (cr : CachedReads) (parent : SealedBlock)
    (extra : Bytes) (cancel : CancelSignal) :
    (∀ (ra : AR) (p : PL),
      s.try_build
        { client := client, pool := pool, cached_reads := cr,
          config := { parent_block := parent, extra_data := extra,
                      attributes := .Right ra },
          cancel := cancel, best_payload := some (.Left p) }
      = s.try_build
        { client := client, pool := pool, cached_reads := cr,
          config := { parent_block := parent, extra_data := extra,
                      attributes := .Right ra },
          cancel := cancel, best_payload := none })
    ∧ (∀ (la : AL) (p : PR),
      s.try_build
        { client := client, pool := pool, cached_reads := cr,
          config := { parent_block := parent, extra_data := extra,
                      attributes := .Left la },
          cancel := cancel, best_payload := some (.Right p) }
      = s.try_build
        { client := client, pool := pool, cached_reads := cr,
          config := { parent_block := parent, extra_data := extra,
                      attributes := .Left la },
          cancel := cancel, best_payload := none }) :=
  ⟨fun _ _ => rfl, fun _ _ => rfl⟩

/-- C6: under `Right`-tagged dispatch a right-builder error `e` is returned
exactly as `Err e`; a right-builder success is returned with its payload
re-tagged `Either::Right`; and under `Left`-tagged dispatch a left-builder
failure never causes the right builder to be tried (the result is the same
for every right builder). -/
theorem try_build_right_error_exact_left_exclusive
    {Pool Client AL AR PL PR : Type}
    (l : PayloadBuilder Pool Client AL PL) (r : PayloadBuilder Pool Client AR PR)
    (args : BuildArguments Pool Client (Either AL AR) (Either PL PR)) :
    (∀ (ra : AR) (e : PayloadBuilderError),
      args.config.attributes = .Right ra →
      r.try_build (PayloadBuilderStack.right_args args ra) = .error e →
      (PayloadBuilderStack.new l r).try_build args = .error e)
    ∧ (∀ (ra : AR) (o : BuildOutcome PR),
      args.config.attributes = .Right ra →
      r.try_build (PayloadBuilderStack.right_args args ra) = .ok o →
      (PayloadBuilderStack.new l r).try_build args
        = .ok (o.map_payload Either.Right))
    ∧ (∀ (la : AL) (e : PayloadBuilderError)
        (r2 : PayloadBuilder Pool Client AR PR),
      args.config.attributes = .Left la →
      l.try_build (PayloadBuilderStack.left_args args la) = .error e →
      (PayloadBuilderStack.new l r).try_build args
        = (PayloadBuilderStack.new l r2).try_build args) := by
  refine ⟨fun ra e h h2 => ?_, fun ra o h h2 => ?_, fun la e r2 h h2 => ?_⟩
  · simp [PayloadBuilderStack.try_build, PayloadBuilderStack.new, h, h2]
  · cases o <;>
      simp [PayloadBuilderStack.try_build, PayloadBuilderStack.new, h, h2, BuildOutcome.map_payload]
  · simp [PayloadBuilderStack.try_build, PayloadBuilderStack.new, h, h2]

/-- Witness for C6 at a concrete input: a failing right builder's error is
propagated unchanged through `Right`-tagged dispatch. -/
theorem try_build_right_error_exact_left_exclusive_witness :
    (PayloadBuilderStack.new exLeftOk exRightErr).try_build (exArgs (.Right 3))
      = .error (.Other "right build failure") :=
  (try_build_right_error_exact_left_exclusive exLeftOk exRightErr
    (exArgs (.Right 3))).1 3 (.Other "right build failure") rfl rfl

/-- C7: `build_empty_payload` dispatches by attribute tag: a `Left`-tagged
request with a successful left builder returns `Ok (Either::Left payload)`; a
left-builder failure is swallowed and replaced by the generic composition
error stating both sides failed; a `Right`-tagged request returns
`Ok (Either::Right payload)` on right success and propagates the right
builder's error unchanged on failure. -/
theorem build_empty_payload_dispatch
    {Pool Client AL AR PL PR : Type}
    (l : PayloadBuilder Pool Client AL PL) (r : PayloadBuilder Pool Client AR PR)
    (client : Client) (config : PayloadConfig (Either AL AR)) :
    (∀ (la : AL) (p : PL),
      config.attributes = .Left la →
      l.build_empty_payload client
        { parent_block := config.parent_block, extra_data := config.extra_data,
          attributes := la } = .ok p →
      (PayloadBuilderStack.new l r).build_empty_payload client config
        = .ok (.Left p))
    ∧ (∀ (la : AL) (e : PayloadBuilderError),
      config.attributes = .Left la →
      l.build_empty_payload client
        { parent_block := config.parent_block, extra_data := config.extra_data,
          attributes := la } = .error e →
      (PayloadBuilderStack.new l r).build_empty_payload client config
        = .error (.Other "Failed to build empty payload with both left and right builders"))
    ∧ (∀ (ra : AR) (p : PR),
      config.attributes = .Right ra →
      r.build_empty_payload client
        { parent_block := config.parent_block, extra_data := config.extra_data,
          attributes := ra } = .ok p →
      (PayloadBuilderStack.new l r).build_empty_payload client config
        = .ok (.Right p))
    ∧ (∀ (ra : AR) (e : PayloadBuilderError),
      config.attributes = .Right ra →
      r.build_empty_payload client
        { parent_block := config.parent_block, extra_data := config.extra_data,
          attributes := ra } = .error e →
      (PayloadBuilderStack.new l r).build_empty_payload client config
        = .error e) := by
  refine ⟨fun la p h h2 => ?_, fun la e h h2 => ?_,
          fun ra p h h2 => ?_, fun ra e h h2 => ?_⟩ <;>
    simp [PayloadBuilderStack.build_empty_payload, PayloadBuilderStack.new, h, h2]

/-- Witness for C7 at concrete inputs: left success is re-tagged `Left`. -/
theorem build_empty_payload_dispatch_witness :
    (PayloadBuilderStack.new exLeftOk exRightErr).build_empty_payload ()
      (exConfig (.Left 4)) = .ok (.Left 1) :=
  (build_empty_payload_dispatch exLeftOk exRightErr () (exConfig (.Left 4))).1
    4 1 rfl rfl

/-- C9: the narrowed `BuildArguments` handed to the dispatched inner builder
carry the same client, pool, cached_reads, parent_block, extra_data and the
identical cancellation signal as the stack's own arguments; only the
attributes are narrowed to the inner variant and `best_payload` to the
matching tag.  Moreover `try_build`'s result depends on the dispatched
builder only through its value at exactly those narrowed arguments. -/
theorem try_build_forwards_narrowed_args
    {Pool Client AL AR PL PR : Type}
    (args : BuildArguments Pool Client (Either AL AR) (Either PL PR)) :
    (∀ la : AL,
      (@PayloadBuilderStack.left_args Pool Client AL AR PL PR args la).client = args.client
      ∧ (@PayloadBuilderStack.left_args Pool Client AL AR PL PR args la).pool = args.pool
      ∧ (@PayloadBuilderStack.left_args Pool Client AL AR PL PR args la).cached_reads
          = args.cached_reads
      ∧ (@PayloadBuilderStack.left_args Pool Client AL AR PL PR args la).config.parent_block
          = args.config.parent_block
      ∧ (@PayloadBuilderStack.left_args Pool Client AL AR PL PR args la).config.extra_data
          = args.config.extra_data
      ∧ (@PayloadBuilderStack.left_args Pool Client AL AR PL PR args la).cancel = args.cancel
      ∧ (@PayloadBuilderStack.left_args Pool Client AL AR PL PR args la).config.attributes = la
      ∧ (@PayloadBuilderStack.left_args Pool Client AL AR PL PR args la).best_payload
          = args.best_payload.bind fun payload =>
              match payload with
              | .Left p => some p
              | _ => none)
    ∧ (∀ ra : AR,
      (@PayloadBuilderStack.right_args Pool Client AL AR PL PR args ra).client = args.client
      ∧ (@PayloadBuilderStack.right_args Pool Client AL AR PL PR args ra).pool = args.pool
      ∧ (@PayloadBuilderStack.right_args Pool Client AL AR PL PR args ra).cached_reads
          = args.cached_reads
      ∧ (@PayloadBuilderStack.right_args Pool Client AL AR PL PR args ra).config.parent_block
          = args.config.parent_block
      ∧ (@PayloadBuilderStack.right_args Pool Client AL AR PL PR args ra).config.extra_data
          = args.config.extra_data
      ∧ (@PayloadBuilderStack.right_args Pool Client AL AR PL PR args ra).cancel = args.cancel
      ∧ (@PayloadBuilderStack.right_args Pool Client AL AR PL PR args ra).config.attributes = ra
      ∧ (@PayloadBuilderStack.right_args Pool Client AL AR PL PR args ra).best_payload
          = args.best_payload.bind fun payload =>
              match payload with
              | .Right p => some p
              | _ => none)
    ∧ (∀ (la : AL) (l1 l2 : PayloadBuilder Pool Client AL PL)
        (r : PayloadBuilder Pool Client AR PR),
      args.config.attributes = .Left la →
      l1.try_build (PayloadBuilderStack.left_args args la)
        = l2.try_build (PayloadBuilderStack.left_args args la) →
      (PayloadBuilderStack.new l1 r).try_build args
        = (PayloadBuilderStack.new l2 r).try_build args)
    ∧ (∀ (ra : AR) (l : PayloadBuilder Pool Client AL PL)
        (r1 r2 : PayloadBuilder Pool Client AR PR),
      args.config.attributes = .Right ra →
      r1.try_build (PayloadBuilderStack.right_args args ra)
        = r2.try_build (PayloadBuilderStack.right_args args ra) →
      (PayloadBuilderStack.new l r1).try_build args
        = (PayloadBuilderStack.new l r2).try_build args) := by
  refine ⟨fun la => ⟨rfl, rfl, rfl, rfl, rfl, rfl, rfl, rfl⟩,
          fun ra => ⟨rfl, rfl, rfl, rfl, rfl, rfl, rfl, rfl⟩,
          fun la l1 l2 r h h2 => ?_, fun ra l r1 r2 h h2 => ?_⟩ <;>
    simp [PayloadBuilderStack.try_build, PayloadBuilderStack.new, h, h2]

/-- Witness for C9 at a concrete input: two left builders agreeing on the
narrowed arguments give the same stack result. -/
theorem try_build_forwards_narrowed_args_witness :
    (PayloadBuilderStack.new exLeftOk exRightOk).try_build (exArgs (.Left 2))
      = (PayloadBuilderStack.new exLeftOk2 exRightOk).try_build
          (exArgs (.Left 2))
    ∧ (@PayloadBuilderStack.left_args Unit Unit Nat Nat Nat Nat (exArgs (.Left 2)) 2).cancel
        = (exArgs (.Left 2)).cancel := by
  refine ⟨?_, ((try_build_forwards_narrowed_args (exArgs (.Left 2))).1 2).2.2.2.2.2.1⟩
  exact (try_build_forwards_narrowed_args
    (exArgs (.Left 2))).2.2.1 2 exLeftOk exLeftOk2 exRightOk rfl rfl

/-- C10: under `Right`-tagged attributes both `try_build` and
`build_empty_payload` return exactly the right builder's result (re-tagged on
success, the unchanged error on failure); the generic trailing "both builders
failed" error is produced only in the `Left` dispatch branch after a
left-builder failure, and there the right builder is never attempted (the
result is the same for every right builder). -/
theorem right_tag_exact_generic_error_left_only
    {Pool Client AL AR PL PR : Type}
    (l : PayloadBuilder Pool Client AL PL) (r : PayloadBuilder Pool Client AR PR)
    (args : BuildArguments Pool Client (Either AL AR) (Either PL PR))
    (client : Client) (config : PayloadConfig (Either AL AR)) :
    (∀ (ra : AR) (o : BuildOutcome PR),
      args.config.attributes = .Right ra →
      r.try_build (PayloadBuilderStack.right_args args ra) = .ok o →
      (PayloadBuilderStack.new l r).try_build args
        = .ok (o.map_payload Either.Right))
    ∧ (∀ (ra : AR) (e : PayloadBuilderError),
      args.config.attributes = .Right ra →
      r.try_build (PayloadBuilderStack.right_args args ra) = .error e →
      (PayloadBuilderStack.new l r).try_build args = .error e)
    ∧ (∀ (ra : AR) (p : PR),
      config.attributes = .Right ra →
      r.build_empty_payload client
        { parent_block := config.parent_block, extra_data := config.extra_data,
          attributes := ra } = .ok p →
      (PayloadBuilderStack.new l r).build_empty_payload client config
        = .ok (.Right p))
    ∧ (∀ (ra : AR) (e : PayloadBuilderError),
      config.attributes = .Right ra →
      r.build_empty_payload client
        { parent_block := config.parent_block, extra_data := config.extra_data,
          attributes := ra } = .error e →
      (PayloadBuilderStack.new l r).build_empty_payload client config
        = .error e)
    ∧ (∀ (la : AL) (e : PayloadBuilderError)
        (r2 : PayloadBuilder Pool Client AR PR),
      args.config.attributes = .Left la →
      l.try_build (PayloadBuilderStack.left_args args la) = .error e →
      (PayloadBuilderStack.new l r).try_build args
        = .error (.Other "Both left and right builders failed to build the payload")
      ∧ (PayloadBuilderStack.new l r).try_build args
        = (PayloadBuilderStack.new l r2).try_build args) := by
  refine ⟨fun ra o h h2 => ?_, fun ra e h h2 => ?_, fun ra p h h2 => ?_,
          fun ra e h h2 => ?_, fun la e r2 h h2 => ⟨?_, ?_⟩⟩
  · cases o <;>
      simp [PayloadBuilderStack.try_build, PayloadBuilderStack.new, h, h2,
        BuildOutcome.map_payload]
  · simp [PayloadBuilderStack.try_build, PayloadBuilderStack.new, h, h2]
  · simp [PayloadBuilderStack.build_empty_payload, PayloadBuilderStack.new, h, h2]
  · simp [PayloadBuilderStack.build_empty_payload, PayloadBuilderStack.new, h, h2]
  · simp [PayloadBuilderStack.try_build, PayloadBuilderStack.new, h, h2]
  · simp [PayloadBuilderStack.try_build, PayloadBuilderStack.new, h, h2]

/-- Witness for C10 at a concrete input: a right success is returned exactly,
re-tagged `Right`; a left failure yields the generic error. -/
theorem right_tag_exact_generic_error_left_only_witness :
    (PayloadBuilderStack.new exLeftErr exRightOk).try_build (exArgs (.Right 9))
      = .ok ((BuildOutcome.Better 2 ⟨6⟩).map_payload Either.Right)
    ∧ (PayloadBuilderStack.new exLeftErr exRightOk).try_build
        (exArgs (.Left 9))
      = .error (.Other "Both left and right builders failed to build the payload") := by
  constructor
  · exact (right_tag_exact_generic_error_left_only exLeftErr exRightOk
      (exArgs (.Right 9)) () (exConfig (.Right 9))).1 9
      (BuildOutcome.Better 2 ⟨6⟩) rfl rfl
  · exact ((right_tag_exact_generic_error_left_only exLeftErr exRightOk
      (exArgs (.Left 9)) () (exConfig (.Left 9))).2.2.2.2 9
      (.Other "left build failure") exRightOk rfl rfl).1

/-- C5 counterexample: with both sides sharing one `Nat`/`Nat` type (a
homogeneous stack), `Left`-tagged attributes, a failing left builder and a
succeeding right builder, the stack's `try_build` returns the generic "both
builders failed" error — not the right builder's result, although the right
builder succeeds on the corresponding narrowed arguments. -/
theorem homogeneous_fallback_counterexample :
    (PayloadBuilderStack.new exLeftErr exRightOk).try_build (exArgs (.Left 0))
      = .error (.Other "Both left and right builders failed to build the payload")
    ∧ exRightOk.try_build
        (PayloadBuilderStack.right_args (exArgs (.Left 0)) 0)
      = .ok (.Better 2 ⟨6⟩)
    ∧ (PayloadBuilderStack.new exLeftErr exRightOk).try_build (exArgs (.Left 0))
      ≠ .ok ((BuildOutcome.Better 2 ⟨6⟩).map_payload Either.Right) :=
  ⟨rfl, rfl, fun h => Except.noConfusion h⟩

/-- C5 amended: even when both sides share one Attributes/BuiltPayload/Error
type, the stack's `try_build` dispatches solely on the `Either` tag of
`config.attributes`.  With `Left`-tagged attributes, a left-builder success
`Ok o` is returned as `o` with its payload re-wrapped in `Either::Left`, and
a left-builder failure yields the generic "both builders failed" error; in
both cases the right builder is never invoked (the result is the same for
every right builder). -/
theorem homogeneous_stack_dispatches_by_tag
    {Pool Client A P : Type}
    (l r : PayloadBuilder Pool Client A P)
    (args : BuildArguments Pool Client (Either A A) (Either P P)) :
    (∀ (la : A) (o : BuildOutcome P),
      args.config.attributes = .Left la →
      l.try_build (PayloadBuilderStack.left_args args la) = .ok o →
      (PayloadBuilderStack.new l r).try_build args
        = .ok (o.map_payload Either.Left)
      ∧ ∀ r2 : PayloadBuilder Pool Client A P,
        (PayloadBuilderStack.new l r).try_build args
          = (PayloadBuilderStack.new l r2).try_build args)
    ∧ (∀ (la : A) (e : PayloadBuilderError),
      args.config.attributes = .Left la →
      l.try_build (PayloadBuilderStack.left_args args la) = .error e →
      (PayloadBuilderStack.new l r).try_build args
        = .error (.Other "Both left and right builders failed to build the payload")
      ∧ ∀ r2 : PayloadBuilder Pool Client A P,
        (PayloadBuilderStack.new l r).try_build args
          = (PayloadBuilderStack.new l r2).try_build args) := by
  refine ⟨fun la o h h2 => ⟨?_, fun r2 => ?_⟩, fun la e h h2 => ⟨?_, fun r2 => ?_⟩⟩
  · cases o <;>
      simp [PayloadBuilderStack.try_build, PayloadBuilderStack.new, h, h2,
        BuildOutcome.map_payload]
  · simp [PayloadBuilderStack.try_build, PayloadBuilderStack.new, h, h2]
  · simp [PayloadBuilderStack.try_build, PayloadBuilderStack.new, h, h2]
  · simp [PayloadBuilderStack.try_build, PayloadBuilderStack.new, h, h2]

/-- Witness for the amended C5 at a concrete input: a homogeneous stack with
a succeeding left builder returns the left outcome re-tagged `Left`. -/
theorem homogeneous_stack_dispatches_by_tag_witness :
    (PayloadBuilderStack.new exLeftOk exRightOk).try_build (exArgs (.Left 0))
      = .ok ((BuildOutcome.Better 1 ⟨5⟩).map_payload Either.Left) :=
  ((homogeneous_stack_dispatches_by_tag exLeftOk exRightOk
    (exArgs (.Left 0))).1 0 (BuildOutcome.Better 1 ⟨5⟩) rfl rfl).1

/-- C8 counterexample: two stacks whose left builders fail with different
concrete causes produce the identical fixed "both sides failed" error from
`build_empty_payload` (and from `try_build`), so the synthesized error wraps
no inner-builder error and the original failure cause is not recoverable
from the returned error. -/
theorem both_failed_error_drops_cause_counterexample :
    (PayloadBuilderStack.new exLeftErr exRightErr).build_empty_payload ()
      (exConfig (.Left 0))
      = .error (.Other "Failed to build empty payload with both left and right builders")
    ∧ (PayloadBuilderStack.new exLeftErr2 exRightErr).build_empty_payload ()
      (exConfig (.Left 0))
      = .error (.Other "Failed to build empty payload with both left and right builders")
    ∧ (PayloadBuilderStack.new exLeftErr exRightErr).build_empty_payload ()
        (exConfig (.Left 0))
      ≠ .error (.Other "left empty failure")
    ∧ (PayloadBuilderStack.new exLeftErr exRightErr).try_build (exArgs (.Left 1))
      = (PayloadBuilderStack.new exLeftErr2 exRightErr).try_build
          (exArgs (.Left 1)) :=
  ⟨rfl, rfl, fun h => by
    have h' : (Except.error (PayloadBuilderError.Other
        "Failed to build empty payload with both left and right builders") :
          Except PayloadBuilderError (Either Nat Nat))
        = Except.error (PayloadBuilderError.Other "left empty failure") := h
    injection h' with h2
    injection h2 with h3
    exact absurd h3 (by decide), rfl⟩

/-- C8 amended: when every fallback path of `build_empty_payload` is
exhausted, the synthesized "both sides failed" error is a fixed generic
error that is independent of the inner builder's concrete error — it wraps a
fresh message only, and the original failure cause is not recoverable from
the returned error. -/
theorem both_failed_error_is_generic
    {Pool Client AL AR PL PR : Type}
    (l1 l2 : PayloadBuilder Pool Client AL PL)
    (r : PayloadBuilder Pool Client AR PR)
    (client : Client) (config : PayloadConfig (Either AL AR))
    (la : AL) (e1 e2 : PayloadBuilderError) :
    config.attributes = .Left la →
    l1.build_empty_payload client
      { parent_block := config.parent_block, extra_data := config.extra_data,
        attributes := la } = .error e1 →
    l2.build_empty_payload client
      { parent_block := config.parent_block, extra_data := config.extra_data,
        attributes := la } = .error e2 →
    (PayloadBuilderStack.new l1 r).build_empty_payload client config
      = .error (.Other "Failed to build empty payload with both left and right builders")
    ∧ (PayloadBuilderStack.new l1 r).build_empty_payload client config
      = (PayloadBuilderStack.new l2 r).build_empty_payload client config := by
  intro h h1 h2
  constructor <;>
    simp [PayloadBuilderStack.build_empty_payload, PayloadBuilderStack.new,
      h, h1, h2]

/-- Witness for the amended C8 at a concrete input: different left failure
causes give the identical fixed generic error. -/
theorem both_failed_error_is_generic_witness :
    (PayloadBuilderStack.new exLeftErr exRightOk).build_empty_payload ()
      (exConfig (.Left 3))
      = .error (.Other "Failed to build empty payload with both left and right builders")
    ∧ (PayloadBuilderStack.new exLeftErr exRightOk).build_empty_payload ()
        (exConfig (.Left 3))
      = (PayloadBuilderStack.new exLeftErr2 exRightOk).build_empty_payload ()
          (exConfig (.Left 3)) :=
  both_failed_error_is_generic exLeftErr exLeftErr2 exRightOk ()
    (exConfig (.Left 3)) 3 (.Other "left empty failure")
    (.Other "another left empty failure") rfl rfl rfl

/-- Witness for C4 at concrete inputs: a `Left`-tagged raw attribute yields a
`Left`-tagged success exactly when the left constructor succeeds, and a
`Left`-tagged error exactly when it fails. -/
theorem either_try_new_dispatches_on_tag_witness :
    Either.try_new exLtryNew exRtryNew 5 (.Left 0) = .ok (.Left 0)
    ∧ Either.try_new exLtryNew exRtryNew 5 (.Left 1)
        = .error (.Left "malformed left attributes") :=
  ⟨(((either_try_new_dispatches_on_tag exLtryNew exRtryNew 5).1 0).1 0).mpr rfl,
   ((((either_try_new_dispatches_on_tag exLtryNew exRtryNew 5).1 1).2).1
     "malformed left attributes").mpr rfl⟩
